import Mathlib

/-!
Shallow embedding of the LineageOS lights HAL for oneplus/msm8998-common
(src/light/Light.cpp).  The HAL maps abstract light requests (type, packed
ARGB color, optional blink timing) onto sysfs LED control nodes.  Pure
computations (luma conversion, duty-cycle ramp encoding, blink timing) are
embedded as Lean functions; the control-node writes performed by each handler
are embedded as an explicit list of (path, value) writes; the three-slot RGB
light state store is a function from slot index to light state.
-/

namespace LightHal

/-- Flash mode of a light request (android.hardware.light@2.0 Flash). -/
inductive Flash where
  | NONE
  | TIMED
  | HARDWARE
deriving DecidableEq, Repr

/-- Logical light type (android.hardware.light@2.0 Type). -/
inductive LightType where
  | BACKLIGHT
  | KEYBOARD
  | BUTTONS
  | BATTERY
  | NOTIFICATIONS
  | ATTENTION
  | BLUETOOTH
  | WIFI
deriving DecidableEq, Repr

/-- Return status of setLight (android.hardware.light@2.0 Status). -/
inductive Status where
  | SUCCESS
  | LIGHT_NOT_SUPPORTED
  | BRIGHTNESS_NOT_SUPPORTED
  | UNKNOWN
deriving DecidableEq, Repr

/-- A light request: packed 32-bit ARGB color, flash mode and on/off blink
durations in milliseconds (int32 in the HIDL).  The brightnessMode field is
ignored by the HAL and not modelled. -/
structure LightState where
  color : Nat
  flashMode : Flash
  flashOnMs : Int
  flashOffMs : Int
deriving DecidableEq, Repr

/-- A value written to a control node: `set(path, value)` streams either an
integer or a string into the node. -/
inductive WriteValue where
  | int (i : Int)
  | str (s : String)
deriving DecidableEq, Repr

/-- One control-node write: path plus the textual value sent to it. -/
structure Write where
  path : String
  value : WriteValue
deriving DecidableEq, Repr

/-- `rgbToBrightness`: mask the color to its low 24 bits and combine the
channels with fixed perceptual weights, then shift right by 8 bits
(Light.cpp lines 39-45). -/
def rgbToBrightness (state : LightState) : Nat :=
  let color := state.color &&& 0x00ffffff
  (77 * ((color >>> 16) &&& 0x00ff)
    + 150 * ((color >>> 8) &&& 0x00ff)
    + 29 * (color &&& 0x00ff)) >>> 8

/-- `kRampSteps` constant (Light.cpp line 98). -/
def kRampSteps : Nat := 16

/-- `kRampMaxStepDurationMs` constant (Light.cpp line 99). -/
def kRampMaxStepDurationMs : Nat := 15

/-- `makeLedPath` lambda (Light.cpp lines 101-103). -/
def makeLedPath (led op : String) : String :=
  "/sys/class/leds/" ++ led ++ "/" ++ op

/-- The sequence of duty-cycle values produced by the `getScaledDutyPercent`
loop (Light.cpp lines 104-113): for i in 0..=kRampSteps the value
`i * 512 * brightness / (255 * kRampSteps)` (C++ int division on nonnegative
operands, i.e. Nat division). -/
def encodeDutyRamp (brightness : Nat) : List Nat :=
  (List.range (kRampSteps + 1)).map (fun i => i * 512 * brightness / (255 * kRampSteps))

/-- `getScaledDutyPercent` lambda (Light.cpp lines 104-113): the duty values
joined with commas into one string. -/
def getScaledDutyPercent (brightness : Nat) : String :=
  String.intercalate "," ((encodeDutyRamp brightness).map (fun v => toString v))

/-- The blink timing computation of `setRgbLight` (Light.cpp lines 120-130),
returning (stepDuration, pauseHi, pauseLo).  C++ int arithmetic; the division
truncates toward zero (Int.tdiv). -/
def encodeTiming (onMs offMs : Int) : Int × Int × Int :=
  if (kRampMaxStepDurationMs * kRampSteps : Nat) > onMs then
    (Int.tdiv onMs (kRampSteps : Nat), 0, offMs)
  else
    ((kRampMaxStepDurationMs : Nat),
     onMs - (kRampSteps : Nat) * (kRampMaxStepDurationMs : Nat),
     offMs - (kRampSteps : Nat) * (kRampMaxStepDurationMs : Nat))

/-- The `colorValues` map of `setRgbLight` (Light.cpp lines 87-90): a
std::map keyed by the strings red/green/blue, which iterates in
lexicographic key order, i.e. blue, green, red. -/
def colorValues (s : LightState) : List (String × Nat) :=
  [("blue", s.color &&& 0xff),
   ("green", (s.color >>> 8) &&& 0xff),
   ("red", (s.color >>> 16) &&& 0xff)]

/-- `onMs` of `setRgbLight` (Light.cpp line 92). -/
def stateOnMs (s : LightState) : Int :=
  if s.flashMode = Flash.TIMED then s.flashOnMs else 0

/-- `offMs` of `setRgbLight` (Light.cpp line 93). -/
def stateOffMs (s : LightState) : Int :=
  if s.flashMode = Flash.TIMED then s.flashOffMs else 0

/-- The scan of `setRgbLight` over the stored states (Light.cpp lines
79-85): the first state whose color has a nonzero low 24 bits, if any. -/
def firstLit : List LightState → Option LightState
  | [] => none
  | s :: rest => if s.color &&& 0xffffff ≠ 0 then some s else firstLit rest

/-- The state driving the hardware after the scan: the first stored state
with nonzero (low 24 bit) color, defaulting to `mLightStates.front()`
(Light.cpp lines 79-85). -/
def activeState (slots : Fin 3 → LightState) : LightState :=
  (firstLit [slots 0, slots 1, slots 2]).getD (slots 0)

/-- The six LUT writes `setRgbLight` performs for one channel in the
blinking case (Light.cpp lines 132-140). -/
def lutChannelWrites (ch : String × Nat) (startIdx : Nat)
    (pauseLo pauseHi stepDuration : Int) : List Write :=
  [⟨makeLedPath ch.1 "lut_flags", .int 95⟩,
   ⟨makeLedPath ch.1 "start_idx", .int startIdx⟩,
   ⟨makeLedPath ch.1 "duty_pcts", .str (getScaledDutyPercent ch.2)⟩,
   ⟨makeLedPath ch.1 "pause_lo", .int pauseLo⟩,
   ⟨makeLedPath ch.1 "pause_hi", .int pauseHi⟩,
   ⟨makeLedPath ch.1 "ramp_step_ms", .int stepDuration⟩]

/-- The per-channel LUT write loop of `setRgbLight` (Light.cpp lines
132-140): a running start index begins at 0 and grows by kRampSteps + 1
after each channel. -/
def lutWrites (channels : List (String × Nat))
    (pauseLo pauseHi stepDuration : Int) : List Write :=
  (channels.foldl
    (fun acc ch =>
      (acc.1 ++ lutChannelWrites ch acc.2 pauseLo pauseHi stepDuration,
       acc.2 + (kRampSteps + 1)))
    (([] : List Write), (0 : Nat))).1

/-- `Light::setRgbLight` (Light.cpp lines 76-156): store the request in its
slot, arbitrate, then emit the control-node writes.  Returns the updated
slot store and the write sequence. -/
def setRgbLight (slots : Fin 3 → LightState) (state : LightState)
    (index : Fin 3) : (Fin 3 → LightState) × List Write :=
  let slots' := Function.update slots index state
  let stateToUse := activeState slots'
  let cv := colorValues stateToUse
  let onMs := stateOnMs stateToUse
  let offMs := stateOffMs stateToUse
  let blinkOff := cv.map (fun ch => Write.mk (makeLedPath ch.1 "blink") (.int 0))
  if onMs > 0 ∧ offMs > 0 then
    let t := encodeTiming onMs offMs
    (slots',
     blinkOff
       ++ lutWrites cv t.2.2 t.2.1 t.1
       ++ cv.map (fun ch => Write.mk (makeLedPath ch.1 "blink") (.int ch.2)))
  else
    (slots',
     blinkOff
       ++ cv.map (fun ch => Write.mk (makeLedPath ch.1 "brightness") (.int ch.2)))

/-- The brightness value `Light::setBacklight` computes (Light.cpp lines
55-70).  `maxBrightnessRead` models the external read of max_brightness
(none when the read fails, mapped to the default -1). -/
def backlightBrightness (maxBrightnessRead : Option Int) (state : LightState) : Int :=
  let maxBrightness := maxBrightnessRead.getD (-1)
  let maxBrightness := if maxBrightness < 0 then 255 else maxBrightness
  let newBrightness : Int := rgbToBrightness state
  if newBrightness > 0 ∧ maxBrightness ≠ 255 then
    Int.tdiv ((maxBrightness - 1) * (newBrightness - 1)) 254 + 1
  else
    newBrightness

/-- `Light::setBacklight` (Light.cpp lines 55-70): one write to the
lcd-backlight brightness node. -/
def setBacklight (maxBrightnessRead : Option Int) (state : LightState) : List Write :=
  [⟨"/sys/class/leds/lcd-backlight/brightness",
    .int (backlightBrightness maxBrightnessRead state)⟩]

/-- `Light::setButtonBacklight` (Light.cpp lines 72-74). -/
def setButtonBacklight (state : LightState) : List Write :=
  [⟨"/sys/class/leds/button-backlight/brightness", .int (rgbToBrightness state)⟩]

/-- A registered handler: the RGB handler with its fixed slot, the
backlight handler, or the buttons handler. -/
inductive Handler where
  | rgb (slot : Fin 3)
  | backlight
  | buttons
deriving DecidableEq, Repr

/-- Modelled from the spec: the handler registry `mLights` is declared in
Light.h, which is not part of src/.  Per the spec it maps each registered
light type to its handler and preserves registration order Attention,
Backlight, Battery, Buttons, Notifications (constructor, Light.cpp lines
47-53), the order `getSupportedTypes` reports. -/
def mLights : List (LightType × Handler) :=
  [(LightType.ATTENTION, Handler.rgb 0),
   (LightType.BACKLIGHT, Handler.backlight),
   (LightType.BATTERY, Handler.rgb 2),
   (LightType.BUTTONS, Handler.buttons),
   (LightType.NOTIFICATIONS, Handler.rgb 1)]

/-- `mLights.find(type)` (Light.cpp line 160). -/
def findHandler (t : LightType) : Option Handler :=
  (mLights.find? (fun p => p.1 = t)).map Prod.snd

/-- Invoking a handler: the state-store mutation and control-node writes it
performs. -/
def runHandler (maxBrightnessRead : Option Int) (slots : Fin 3 → LightState)
    (h : Handler) (state : LightState) : (Fin 3 → LightState) × List Write :=
  match h with
  | .rgb i => setRgbLight slots state i
  | .backlight => (slots, setBacklight maxBrightnessRead state)
  | .buttons => (slots, setButtonBacklight state)

/-- `Light::setLight` (Light.cpp lines 159-172): look up the handler for
the type; absent means LIGHT_NOT_SUPPORTED with no effect, otherwise the
handler runs (under the global lock) and SUCCESS is returned. -/
def setLight (maxBrightnessRead : Option Int) (slots : Fin 3 → LightState)
    (t : LightType) (state : LightState) :
    Status × (Fin 3 → LightState) × List Write :=
  match findHandler t with
  | none => (Status.LIGHT_NOT_SUPPORTED, slots, [])
  | some h => (Status.SUCCESS, runHandler maxBrightnessRead slots h state)

/-- `Light::getSupportedTypes` (Light.cpp lines 174-184): the keys of
`mLights` in the order the registry holds them. -/
def getSupportedTypes : List LightType :=
  mLights.map Prod.fst

lemma and_mask_ff (c : Nat) : c &&& 0xff = c % 256 :=
  Nat.and_pow_two_sub_one_eq_mod c 8

lemma and_mask_ffffff (c : Nat) : c &&& 0xffffff = c % 16777216 :=
  Nat.and_pow_two_sub_one_eq_mod c 24

lemma rgbToBrightness_eq (s : LightState) :
    rgbToBrightness s =
      (77 * ((s.color >>> 16) &&& 0xff) + 150 * ((s.color >>> 8) &&& 0xff)
        + 29 * (s.color &&& 0xff)) >>> 8 := by
  simp only [rgbToBrightness, and_mask_ff, and_mask_ffffff, Nat.shiftRight_eq_div_pow]
  norm_num
  omega

lemma rgbToBrightness_le (s : LightState) : rgbToBrightness s ≤ 255 := by
  rw [rgbToBrightness_eq]
  simp only [and_mask_ff, Nat.shiftRight_eq_div_pow]
  norm_num
  omega

/-- Claim C4: the luma conversion is the fixed-weight sum shifted right by 8, depends
only on the low 24 bits of the color, always lands in [0, 255], and takes the
stated values at black, white and pure red. -/
theorem luma_conversion (s t : LightState) :
    rgbToBrightness s =
      (77 * ((s.color >>> 16) &&& 0xff) + 150 * ((s.color >>> 8) &&& 0xff)
        + 29 * (s.color &&& 0xff)) >>> 8 ∧
    (s.color &&& 0xffffff = t.color &&& 0xffffff → rgbToBrightness s = rgbToBrightness t) ∧
    rgbToBrightness s ≤ 255 ∧
    rgbToBrightness ⟨0x000000, Flash.NONE, 0, 0⟩ = 0 ∧
    rgbToBrightness ⟨0xFFFFFF, Flash.NONE, 0, 0⟩ = 255 ∧
    rgbToBrightness ⟨0xFF0000, Flash.NONE, 0, 0⟩ = 76 := by
  refine ⟨rgbToBrightness_eq s, ?_, rgbToBrightness_le s, by decide, by decide, by decide⟩
  intro h
  rw [rgbToBrightness_eq s, rgbToBrightness_eq t]
  simp only [and_mask_ff, and_mask_ffffff, Nat.shiftRight_eq_div_pow] at h ⊢
  norm_num at h ⊢
  omega

/-- Witness for C4 at a pair of colors equal in the low 24 bits. -/
theorem luma_conversion_witness :
    (LightState.mk 0xAB123456 Flash.NONE 0 0).color &&& 0xffffff
      = (LightState.mk 0x123456 Flash.NONE 0 0).color &&& 0xffffff ∧
    rgbToBrightness ⟨0xAB123456, Flash.NONE, 0, 0⟩
      = rgbToBrightness ⟨0x123456, Flash.NONE, 0, 0⟩ :=
  ⟨by decide,
   (luma_conversion ⟨0xAB123456, Flash.NONE, 0, 0⟩ ⟨0x123456, Flash.NONE, 0, 0⟩).2.1 (by decide)⟩

lemma encodeDutyRamp_getD (b i : Nat) (h : i < 17) :
    (encodeDutyRamp b).getD i 0 = i * 512 * b / (255 * 16) := by
  simp [encodeDutyRamp, kRampSteps, List.getD_eq_getElem?_getD, List.getElem?_map,
    List.getElem?_range, h]

lemma encodeDutyRamp_pairwise (b : Nat) : (encodeDutyRamp b).Pairwise (· ≤ ·) := by
  unfold encodeDutyRamp
  refine List.Pairwise.map _ (fun i j hij => ?_) (List.pairwise_lt_range _)
  gcongr

/-- Claim C3: the duty ramp has 17 entries, entry i is i * 512 * b / (255 * 16), the
sequence is non-decreasing, starts at 0 and ends at 512 * b / 255. -/
theorem duty_ramp_encoding (b : Nat) (hb : b ≤ 255) :
    (encodeDutyRamp b).length = 17 ∧
    (∀ i : Nat, i < 17 → (encodeDutyRamp b).getD i 0 = i * 512 * b / (255 * 16)) ∧
    (encodeDutyRamp b).Pairwise (· ≤ ·) ∧
    (encodeDutyRamp b).getD 0 0 = 0 ∧
    (encodeDutyRamp b).getD 16 0 = 512 * b / 255 := by
  refine ⟨by simp [encodeDutyRamp, kRampSteps], fun i h => encodeDutyRamp_getD b i h,
    encodeDutyRamp_pairwise b, ?_, ?_⟩
  · rw [encodeDutyRamp_getD b 0 (by norm_num)]
    simp
  · rw [encodeDutyRamp_getD b 16 (by norm_num)]
    rw [show 16 * 512 * b = 16 * (512 * b) by ring, show 255 * 16 = 16 * 255 by norm_num]
    exact Nat.mul_div_mul_left _ _ (by norm_num)

/-- Witness for C3 at brightness 128. -/
theorem duty_ramp_encoding_witness :
    128 ≤ 255 ∧
    ((encodeDutyRamp 128).length = 17 ∧
     (∀ i : Nat, i < 17 → (encodeDutyRamp 128).getD i 0 = i * 512 * 128 / (255 * 16)) ∧
     (encodeDutyRamp 128).Pairwise (· ≤ ·) ∧
     (encodeDutyRamp 128).getD 0 0 = 0 ∧
     (encodeDutyRamp 128).getD 16 0 = 512 * 128 / 255) :=
  ⟨by decide, duty_ramp_encoding 128 (by decide)⟩

/-- Claim C7: getSupportedTypes succeeds and lists the registered types in
registration order Attention, Backlight, Battery, Buttons, Notifications. -/
theorem supported_types_order :
    getSupportedTypes =
      [LightType.ATTENTION, LightType.BACKLIGHT, LightType.BATTERY,
       LightType.BUTTONS, LightType.NOTIFICATIONS] := by
  decide

/-- Claim C5: backlight scaling -- identity at maxRange 255, zero maps to zero, the
interpolation formula otherwise, 255 maps to maxRange whenever maxRange is at
least 1, and no nonzero luma produces a zero write. -/
theorem backlight_scaling (r : Option Int) (s : LightState) :
    let m : Int := if r.getD (-1) < 0 then 255 else r.getD (-1)
    (m = 255 → backlightBrightness r s = rgbToBrightness s) ∧
    (rgbToBrightness s = 0 → backlightBrightness r s = 0) ∧
    (m ≠ 255 → 0 < rgbToBrightness s →
      backlightBrightness r s = Int.tdiv ((m - 1) * ((rgbToBrightness s : Int) - 1)) 254 + 1) ∧
    (1 ≤ m → rgbToBrightness s = 255 → backlightBrightness r s = m) ∧
    (1 ≤ m → 0 < rgbToBrightness s → 0 < backlightBrightness r s) := by
  intro m
  have key : backlightBrightness r s =
      if (rgbToBrightness s : Int) > 0 ∧ m ≠ 255 then
        Int.tdiv ((m - 1) * ((rgbToBrightness s : Int) - 1)) 254 + 1
      else (rgbToBrightness s : Int) := rfl
  refine ⟨?_, ?_, ?_, ?_, ?_⟩
  · intro h255
    rw [key, if_neg (by simp [h255])]
  · intro h0
    rw [key, if_neg (by simp [h0])]
    simp [h0]
  · intro hne hpos
    rw [key, if_pos ⟨by exact_mod_cast hpos, hne⟩]
  · intro h1 h255
    by_cases hm : m = 255
    · rw [key, if_neg (by simp [hm]), h255, hm]
      norm_num
    · rw [key, if_pos ⟨by rw [h255]; norm_num, hm⟩, h255]
      have : ((255 : Nat) : Int) - 1 = 254 := by norm_num
      rw [this, Int.mul_tdiv_cancel _ (by norm_num)]
      omega
  · intro h1 hpos
    by_cases hm : m = 255
    · rw [key, if_neg (by simp [hm])]
      exact_mod_cast hpos
    · rw [key, if_pos ⟨by exact_mod_cast hpos, hm⟩]
      have h2 : (0 : Int) ≤ (m - 1) * ((rgbToBrightness s : Int) - 1) := by
        apply mul_nonneg <;> omega
      have := Int.tdiv_nonneg h2 (by norm_num : (0:Int) ≤ 254)
      omega

/-- Witness for C5: panel max 1023, white input maps to 1023. -/
theorem backlight_scaling_witness :
    backlightBrightness (some 1023) ⟨0xFFFFFF, Flash.NONE, 0, 0⟩ = 1023 :=
  (backlight_scaling (some 1023) ⟨0xFFFFFF, Flash.NONE, 0, 0⟩).2.2.2.1 (by decide) (by decide)

/-- Claim C1: setRgbLight stores the request at its slot; the state driving the
hardware is the first slot, in order Attention (0), Notifications (1),
Battery (2), whose color has a nonzero low 24 bits, defaulting to slot 0;
with slots 0x000000 / 0x00FF00 / 0xFF0000 the Notifications state wins; and
the handler registry binds Attention, Notifications, Battery to slots
0, 1, 2. -/
theorem rgb_arbitration (slots : Fin 3 → LightState) (idx : Fin 3) (st : LightState) :
    ((setRgbLight slots st idx).1 = Function.update slots idx st) ∧
    (activeState (Function.update slots idx st) =
      (let s := Function.update slots idx st
       if (s 0).color &&& 0xffffff ≠ 0 then s 0
       else if (s 1).color &&& 0xffffff ≠ 0 then s 1
       else if (s 2).color &&& 0xffffff ≠ 0 then s 2
       else s 0)) ∧
    activeState
        ![⟨0x000000, Flash.NONE, 0, 0⟩, ⟨0x00FF00, Flash.NONE, 0, 0⟩,
          ⟨0xFF0000, Flash.NONE, 0, 0⟩]
      = ⟨0x00FF00, Flash.NONE, 0, 0⟩ ∧
    findHandler LightType.ATTENTION = some (Handler.rgb 0) ∧
    findHandler LightType.NOTIFICATIONS = some (Handler.rgb 1) ∧
    findHandler LightType.BATTERY = some (Handler.rgb 2) := by
  refine ⟨?_, ?_, by decide, by decide, by decide, by decide⟩
  · simp only [setRgbLight]
    split <;> rfl
  · simp only [activeState, firstLit]
    split_ifs <;> simp [Option.getD]

/-- Claim C8: an unregistered type yields LIGHT_NOT_SUPPORTED with no writes and an
unchanged store; a registered type runs its handler and yields SUCCESS; no
other status is possible. -/
theorem dispatch_behavior (r : Option Int) (slots : Fin 3 → LightState)
    (t : LightType) (st : LightState) :
    (findHandler t = none →
      setLight r slots t st = (Status.LIGHT_NOT_SUPPORTED, slots, [])) ∧
    (∀ h : Handler, findHandler t = some h →
      setLight r slots t st = (Status.SUCCESS, runHandler r slots h st)) ∧
    ((setLight r slots t st).1 = Status.SUCCESS ∨
      (setLight r slots t st).1 = Status.LIGHT_NOT_SUPPORTED) := by
  refine ⟨fun hn => ?_, fun h hh => ?_, ?_⟩
  · simp [setLight, hn]
  · simp [setLight, hh]
  · cases hf : findHandler t <;> simp [setLight, hf]

/-- Witness for C8: Bluetooth has no handler, so its request is rejected with
no writes; Buttons has one, so its request succeeds. -/
theorem dispatch_behavior_witness :
    setLight none (fun _ => ⟨0, Flash.NONE, 0, 0⟩) LightType.BLUETOOTH ⟨5, Flash.NONE, 0, 0⟩
      = (Status.LIGHT_NOT_SUPPORTED, (fun _ => ⟨0, Flash.NONE, 0, 0⟩), []) ∧
    setLight none (fun _ => ⟨0, Flash.NONE, 0, 0⟩) LightType.BUTTONS ⟨5, Flash.NONE, 0, 0⟩
      = (Status.SUCCESS,
         runHandler none (fun _ => ⟨0, Flash.NONE, 0, 0⟩) Handler.buttons ⟨5, Flash.NONE, 0, 0⟩) :=
  ⟨(dispatch_behavior none (fun _ => ⟨0, Flash.NONE, 0, 0⟩) LightType.BLUETOOTH
      ⟨5, Flash.NONE, 0, 0⟩).1 (by decide),
   (dispatch_behavior none (fun _ => ⟨0, Flash.NONE, 0, 0⟩) LightType.BUTTONS
      ⟨5, Flash.NONE, 0, 0⟩).2.1 Handler.buttons (by decide)⟩

lemma setRgbLight_snd_static (slots : Fin 3 → LightState) (st : LightState) (idx : Fin 3)
    (h : ¬(0 < stateOnMs (activeState (Function.update slots idx st)) ∧
           0 < stateOffMs (activeState (Function.update slots idx st)))) :
    (setRgbLight slots st idx).2 =
      (colorValues (activeState (Function.update slots idx st))).map
        (fun ch => Write.mk (makeLedPath ch.1 "blink") (WriteValue.int 0)) ++
      (colorValues (activeState (Function.update slots idx st))).map
        (fun ch => Write.mk (makeLedPath ch.1 "brightness") (WriteValue.int ch.2)) := by
  simp only [setRgbLight]
  rw [if_neg h]

lemma setRgbLight_snd_blink (slots : Fin 3 → LightState) (st : LightState) (idx : Fin 3)
    (h : 0 < stateOnMs (activeState (Function.update slots idx st)) ∧
         0 < stateOffMs (activeState (Function.update slots idx st))) :
    (setRgbLight slots st idx).2 =
      (colorValues (activeState (Function.update slots idx st))).map
        (fun ch => Write.mk (makeLedPath ch.1 "blink") (WriteValue.int 0)) ++
      lutWrites (colorValues (activeState (Function.update slots idx st)))
        (encodeTiming (stateOnMs (activeState (Function.update slots idx st)))
          (stateOffMs (activeState (Function.update slots idx st)))).2.2
        (encodeTiming (stateOnMs (activeState (Function.update slots idx st)))
          (stateOffMs (activeState (Function.update slots idx st)))).2.1
        (encodeTiming (stateOnMs (activeState (Function.update slots idx st)))
          (stateOffMs (activeState (Function.update slots idx st)))).1 ++
      (colorValues (activeState (Function.update slots idx st))).map
        (fun ch => Write.mk (makeLedPath ch.1 "blink") (WriteValue.int ch.2)) := by
  simp only [setRgbLight]
  rw [if_pos h]

lemma lutWrites_three (c1 c2 c3 : String × Nat) (pl ph sd : Int) :
    lutWrites [c1, c2, c3] pl ph sd =
      lutChannelWrites c1 0 pl ph sd ++ lutChannelWrites c2 17 pl ph sd ++
        lutChannelWrites c3 34 pl ph sd := by
  simp [lutWrites, kRampSteps, List.append_assoc]

/-- Claim C2: with positive on and off durations the timing encoding is
(onMs / 16, 0, offMs) when 15 * 16 exceeds onMs and
(15, onMs - 240, offMs - 240) otherwise; when the derived on or off duration
is zero, setRgbLight takes the static brightness path with no LUT writes. -/
theorem blink_timing_encoding (onMs offMs : Int) (hon : 0 < onMs) (hoff : 0 < offMs) :
    ((15 * 16 > onMs → encodeTiming onMs offMs = (Int.tdiv onMs 16, 0, offMs)) ∧
     (¬15 * 16 > onMs →
       encodeTiming onMs offMs = (15, onMs - 16 * 15, offMs - 16 * 15))) ∧
    (∀ (slots : Fin 3 → LightState) (idx : Fin 3) (st : LightState),
      stateOnMs (activeState (Function.update slots idx st)) = 0 ∨
      stateOffMs (activeState (Function.update slots idx st)) = 0 →
      (setRgbLight slots st idx).2 =
        (colorValues (activeState (Function.update slots idx st))).map
          (fun ch => Write.mk (makeLedPath ch.1 "blink") (WriteValue.int 0)) ++
        (colorValues (activeState (Function.update slots idx st))).map
          (fun ch => Write.mk (makeLedPath ch.1 "brightness") (WriteValue.int ch.2))) := by
  refine ⟨⟨fun hlt => ?_, fun hge => ?_⟩, fun slots idx st h0 => ?_⟩
  · simp only [encodeTiming, kRampSteps, kRampMaxStepDurationMs]
    rw [if_pos (by push_cast; omega)]
    norm_num
  · simp only [encodeTiming, kRampSteps, kRampMaxStepDurationMs]
    rw [if_neg (by push_cast; omega)]
    norm_num
  · refine setRgbLight_snd_static slots st idx ?_
    rintro ⟨h1, h2⟩
    rcases h0 with h | h <;> omega

/-- Witness for C2 at onMs = 100, offMs = 50 (short-ramp branch). -/
theorem blink_timing_encoding_witness :
    encodeTiming 100 50 = (Int.tdiv 100 16, 0, 50) :=
  ((blink_timing_encoding 100 50 (by decide) (by decide)).1).1 (by decide)

/-- Claim C6: in the blinking case the write sequence is blink-off for every channel
in order blue, green, red, then per channel the LUT nodes with start indices
0, 17, 34, then blink-on with each channel intensity; in the static case it is
blink-off followed by one plain brightness write per channel. -/
theorem rgb_write_sequence (slots : Fin 3 → LightState) (idx : Fin 3) (st : LightState)
    (a : LightState) (t : Int × Int × Int)
    (ha : a = activeState (Function.update slots idx st))
    (ht : t = encodeTiming (stateOnMs a) (stateOffMs a)) :
    (0 < stateOnMs a ∧ 0 < stateOffMs a →
      (setRgbLight slots st idx).2 =
        [Write.mk (makeLedPath "blue" "blink") (WriteValue.int 0),
         Write.mk (makeLedPath "green" "blink") (WriteValue.int 0),
         Write.mk (makeLedPath "red" "blink") (WriteValue.int 0)] ++
        (lutChannelWrites ("blue", a.color &&& 0xff) 0 t.2.2 t.2.1 t.1 ++
         lutChannelWrites ("green", (a.color >>> 8) &&& 0xff) 17 t.2.2 t.2.1 t.1 ++
         lutChannelWrites ("red", (a.color >>> 16) &&& 0xff) 34 t.2.2 t.2.1 t.1) ++
        [Write.mk (makeLedPath "blue" "blink") (WriteValue.int ((a.color &&& 0xff : Nat) : Int)),
         Write.mk (makeLedPath "green" "blink") (WriteValue.int (((a.color >>> 8) &&& 0xff : Nat) : Int)),
         Write.mk (makeLedPath "red" "blink")
           (WriteValue.int (((a.color >>> 16) &&& 0xff : Nat) : Int))]) ∧
    (¬(0 < stateOnMs a ∧ 0 < stateOffMs a) →
      (setRgbLight slots st idx).2 =
        [Write.mk (makeLedPath "blue" "blink") (WriteValue.int 0),
         Write.mk (makeLedPath "green" "blink") (WriteValue.int 0),
         Write.mk (makeLedPath "red" "blink") (WriteValue.int 0)] ++
        [Write.mk (makeLedPath "blue" "brightness") (WriteValue.int ((a.color &&& 0xff : Nat) : Int)),
         Write.mk (makeLedPath "green" "brightness") (WriteValue.int (((a.color >>> 8) &&& 0xff : Nat) : Int)),
         Write.mk (makeLedPath "red" "brightness")
           (WriteValue.int (((a.color >>> 16) &&& 0xff : Nat) : Int))]) := by
  subst ha
  subst ht
  constructor
  · intro h
    rw [setRgbLight_snd_blink slots st idx h]
    simp [colorValues, lutWrites_three, List.append_assoc]
  · intro h
    rw [setRgbLight_snd_static slots st idx h]
    simp [colorValues]

/-- Witness for C6: a timed red request on empty slots produces the full
blinking write sequence with start indices 0, 17, 34. -/
theorem rgb_write_sequence_witness :
    (setRgbLight (fun _ => ⟨0, Flash.NONE, 0, 0⟩) ⟨0xFF0000, Flash.TIMED, 240, 100⟩ 0).2 =
      [Write.mk (makeLedPath "blue" "blink") (WriteValue.int 0),
       Write.mk (makeLedPath "green" "blink") (WriteValue.int 0),
       Write.mk (makeLedPath "red" "blink") (WriteValue.int 0)] ++
      (lutChannelWrites ("blue", 0) 0 (-140) 0 15 ++
       lutChannelWrites ("green", 0) 17 (-140) 0 15 ++
       lutChannelWrites ("red", 255) 34 (-140) 0 15) ++
      [Write.mk (makeLedPath "blue" "blink") (WriteValue.int 0),
       Write.mk (makeLedPath "green" "blink") (WriteValue.int 0),
       Write.mk (makeLedPath "red" "blink") (WriteValue.int 255)] :=
  (rgb_write_sequence (fun _ => ⟨0, Flash.NONE, 0, 0⟩) 0 ⟨0xFF0000, Flash.TIMED, 240, 100⟩
      ⟨0xFF0000, Flash.TIMED, 240, 100⟩ (15, 0, -140) (by decide) (by decide)).1
    ⟨by decide, by decide⟩

/-- Claim C10: when the active state is timed with onMs at least 240 and offMs
strictly between 0 and 240, the encoded pause-lo is offMs - 240, which is
negative, and that negative value is written to every channel's pause_lo
node. -/
theorem pause_lo_negative (slots : Fin 3 → LightState) (idx : Fin 3) (st : LightState)
    (hmode : (activeState (Function.update slots idx st)).flashMode = Flash.TIMED)
    (hon : 240 ≤ (activeState (Function.update slots idx st)).flashOnMs)
    (hoffp : 0 < (activeState (Function.update slots idx st)).flashOffMs)
    (hofflt : (activeState (Function.update slots idx st)).flashOffMs < 240) :
    (encodeTiming (stateOnMs (activeState (Function.update slots idx st)))
        (stateOffMs (activeState (Function.update slots idx st)))).2.2
      = (activeState (Function.update slots idx st)).flashOffMs - 240 ∧
    (activeState (Function.update slots idx st)).flashOffMs - 240 < 0 ∧
    ∀ ch ∈ (["blue", "green", "red"] : List String),
      Write.mk (makeLedPath ch "pause_lo")
          (WriteValue.int ((activeState (Function.update slots idx st)).flashOffMs - 240))
        ∈ (setRgbLight slots st idx).2 := by
  have honMs : stateOnMs (activeState (Function.update slots idx st))
      = (activeState (Function.update slots idx st)).flashOnMs := by
    simp [stateOnMs, hmode]
  have hoffMs : stateOffMs (activeState (Function.update slots idx st))
      = (activeState (Function.update slots idx st)).flashOffMs := by
    simp [stateOffMs, hmode]
  have htm : encodeTiming (stateOnMs (activeState (Function.update slots idx st)))
      (stateOffMs (activeState (Function.update slots idx st)))
      = (15, (activeState (Function.update slots idx st)).flashOnMs - 240,
         (activeState (Function.update slots idx st)).flashOffMs - 240) := by
    simp only [encodeTiming, kRampSteps, kRampMaxStepDurationMs, honMs, hoffMs]
    rw [if_neg (by push_cast; omega)]
    norm_num
  refine ⟨by rw [htm], by omega, ?_⟩
  have hpos : 0 < stateOnMs (activeState (Function.update slots idx st)) ∧
      0 < stateOffMs (activeState (Function.update slots idx st)) := by
    rw [honMs, hoffMs]
    omega
  rw [setRgbLight_snd_blink slots st idx hpos, htm]
  intro ch hch
  fin_cases hch <;>
    simp [colorValues, lutWrites_three, lutChannelWrites, List.mem_append, List.mem_cons]

/-- Witness for C10: slots empty, a timed red request with onMs 240 and
offMs 100 writes -140 to the blue channel's pause_lo node. -/
theorem pause_lo_negative_witness :
    Write.mk (makeLedPath "blue" "pause_lo") (WriteValue.int (-140))
      ∈ (setRgbLight (fun _ => ⟨0, Flash.NONE, 0, 0⟩)
          ⟨0xFF0000, Flash.TIMED, 240, 100⟩ 0).2 := by
  have h := pause_lo_negative (fun _ => ⟨0, Flash.NONE, 0, 0⟩) 0
    ⟨0xFF0000, Flash.TIMED, 240, 100⟩ (by decide) (by decide) (by decide) (by decide)
  exact h.2.2 "blue" (by decide)

end LightHal
